import Mathlib

/-!
Verification development for `scripts/generate_cursor_plugin.py`.

The script is a deterministic build-time transformation: it reads an
authoritative plugin manifest (JSON), an optional gemini extension config
(JSON), and a set of skill descriptor files, and produces two JSON output
files (a Cursor plugin manifest and an MCP server config), either writing
them or, in check mode, comparing them against disk without writing.

Every definition below is a shallow embedding of the corresponding Python
function, keeping the source's names where Lean allows.  JSON values are
modelled by the inductive `Json`; Python dicts by insertion-ordered
association lists; the filesystem by explicit state records.  Definitions
whose doc comment says they follow the specification's words (rather than
the source) are clearly marked; they exist only to be compared with the
source-derived definitions.
-/

set_option autoImplicit false

namespace CursorGen

/-- The six characters Python's `str.strip()` removes by default
(space, tab, newline, carriage return, vertical tab, form feed). -/
def pyWs (c : Char) : Bool :=
  c == ' ' || c == '\t' || c == '\n' || c == '\r' || c == '\x0b' || c == '\x0c'

/-- Python `str.strip()` on a character list: drop whitespace from both ends. -/
def pyStripChars (cs : List Char) : List Char :=
  ((cs.dropWhile pyWs).reverse.dropWhile pyWs).reverse

/-- Python `str.strip()` on a string. -/
def pyStripStr (s : String) : String :=
  String.mk (pyStripChars s.data)

/-- JSON values as produced by `json.loads`.  Numbers are modelled as
integers (no claim depends on fractional values); objects are
insertion-ordered association lists, as Python dicts are. -/
inductive Json where
  | null
  | bool (b : Bool)
  | num (n : Int)
  | str (s : String)
  | arr (elems : List Json)
  | obj (entries : List (String × Json))

/-- Python truthiness of a JSON value (`bool(x)`), as used by `x or y`. -/
def Json.truthy : Json → Bool
  | .null => false
  | .bool b => b
  | .num n => n != 0
  | .str s => s != ""
  | .arr xs => !xs.isEmpty
  | .obj kvs => !kvs.isEmpty

/-- `isinstance(v, dict)`. -/
def Json.isDict : Json → Bool
  | .obj _ => true
  | _ => false

/-- `isinstance(v, dict) and v` : a non-empty dict. -/
def Json.isNonemptyDict : Json → Bool
  | .obj (_ :: _) => true
  | _ => false

/-- Python `d.get(k)` on a dict: first entry with the given key (keys of a
real Python dict are unique, so first = only). -/
def jget : List (String × Json) → String → Option Json
  | [], _ => none
  | (k2, v) :: rest, k => if k2 = k then some v else jget rest k

/-- The state of one JSON input file on disk: absent, present but not valid
JSON (`json.loads` raises), or present and parsed. -/
inductive FileState where
  | absent
  | invalid
  | parsed (data : Json)

/-- The distinct ways the script can raise before completing:
`missingFile` from `load_json` on an absent required file, `parseError`
from `json.loads`, `attributeError` from calling `.get` on a non-dict,
`valueError` from name validation, `discoveryError` from an empty skill
list. -/
inductive ScriptError where
  | missingFile
  | parseError
  | attributeError
  | valueError
  | discoveryError

def DEFAULT_MCP_SERVER_NAME : String := "huggingface-skills"

def DEFAULT_MCP_URL : String := "https://huggingface.co/mcp?login"

/-- Character class `[a-z0-9]` of `PLUGIN_NAME_RE`. -/
def lowerAlnum (c : Char) : Bool :=
  ('a' ≤ c && c ≤ 'z') || ('0' ≤ c && c ≤ '9')

/-- Character class `[a-z0-9.-]` of `PLUGIN_NAME_RE`. -/
def interiorChar (c : Char) : Bool :=
  lowerAlnum c || c == '.' || c == '-'

/-- The language of the regex body `[a-z0-9](?:[a-z0-9.-]*[a-z0-9])?`:
a single `[a-z0-9]` character, or such a character, then interior
characters from `[a-z0-9.-]`, then a final `[a-z0-9]` character. -/
def nameCoreChars : List Char → Bool
  | [] => false
  | [c] => lowerAlnum c
  | c :: c2 :: cs =>
    lowerAlnum c && ((c2 :: cs).dropLast.all interiorChar
      && lowerAlnum ((c2 :: cs).getLastD ' '))

/-- `PLUGIN_NAME_RE.match(s)` for the anchored pattern
`^[a-z0-9](?:[a-z0-9.-]*[a-z0-9])?$`.  Python's `$` (without
`re.MULTILINE`) matches at the end of the string or just before a single
trailing newline, so the regex also accepts `core ++ "\n"`. -/
def PLUGIN_NAME_RE_match (s : String) : Bool :=
  nameCoreChars s.data
    || ((s.data.getLastD ' ' == '\n') && nameCoreChars s.data.dropLast)

/-- `validate_plugin_name`: raises `ValueError` when the regex does not
match. -/
def validate_plugin_name (name : String) : Except ScriptError Unit :=
  if PLUGIN_NAME_RE_match name then Except.ok () else Except.error .valueError

/-- The name pattern as the specification words it: non-empty, starts and
ends with a lowercase alphanumeric character, interior characters may
additionally include `.` and `-`.  Follows the spec's words, for
comparison with the source-derived `PLUGIN_NAME_RE_match`. -/
def claimNameOkChars (cs : List Char) : Bool :=
  !cs.isEmpty && lowerAlnum (cs.headD ' ') && lowerAlnum (cs.getLastD ' ')
    && (cs.drop 1).dropLast.all interiorChar

/-- One step of the frontmatter line loop: `":" in line`, split on the
first colon, strip both sides. -/
def lineKV (line : List Char) : Option (String × String) :=
  if line.any (fun c => c == ':') then
    some (String.mk (pyStripChars (line.takeWhile (fun c => c != ':'))),
          String.mk (pyStripChars ((line.dropWhile (fun c => c != ':')).drop 1)))
  else none

/-- Python dict assignment `d[k] = v` on an insertion-ordered association
list: an existing key keeps its position and gets the new value, a new key
is appended (keys of a real Python dict are unique, so replacing the first
occurrence is replacing the only one). -/
def dictInsert : List (String × String) → String → String → List (String × String)
  | [], k, v => [(k, v)]
  | (k2, v2) :: rest, k, v =>
    if k2 = k then (k, v) :: rest else (k2, v2) :: dictInsert rest k v

/-- Python dict lookup `d.get(k)` for string-valued dicts. -/
def dictGet : List (String × String) → String → Option String
  | [], _ => none
  | (k2, v) :: rest, k => if k2 = k then some v else dictGet rest k

/-- The loop body of `parse_frontmatter` over the header block's lines. -/
def parseHeaderLines (lines : List (List Char)) : List (String × String) :=
  lines.foldl (fun m line =>
    match lineKV line with
    | some kv => dictInsert m kv.1 kv.2
    | none => m) []

/-- Split a character list at the first occurrence of the four characters
newline, dash, dash, dash, returning the part before it; `none` when there
is no occurrence.  This is the lazy group `(.*?)` followed by `\n---`. -/
def takeUntilNlDashes : List Char → Option (List Char)
  | [] => none
  | c :: rest =>
    if c == '\n' && rest.take 3 == ['-', '-', '-'] then some []
    else (takeUntilNlDashes rest).map (fun b => c :: b)

/-- One backtracking attempt of `---\s*\n(.*?)\n---` after the opening
dashes: `\s*` consumes exactly `k` characters (all whitespace), the literal
`\n` must follow, then the lazy group runs to the first `\n---`. -/
def fmAt (after3 : List Char) (k : Nat) : Option (List Char) :=
  let w := after3.take k
  let rest := after3.drop k
  if w.all pyWs && rest.head? == some '\n' then
    takeUntilNlDashes (rest.drop 1)
  else none

/-- Backtracking of the greedy `\s*`: try the longest whitespace run
first, then shorter ones. -/
def fmSearch (after3 : List Char) : Nat → Option (List Char)
  | 0 => fmAt after3 0
  | k + 1 =>
    match fmAt after3 (k + 1) with
    | some block => some block
    | none => fmSearch after3 k

/-- The captured group of
`re.search(r"^---\s*\n(.*?)\n---\s*", text, re.DOTALL)`.
Without `re.MULTILINE` the `^` anchors at position 0 only, so the text must
begin with `---`; the trailing `\s*` imposes no constraint.  Greedy `\s*`
tries longer whitespace runs first; the lazy group stops at the first
`\n---`. -/
def frontmatterBlock (text : String) : Option (List Char) :=
  if text.data.take 3 == ['-', '-', '-'] then
    let after3 := text.data.drop 3
    fmSearch after3 ((after3.takeWhile pyWs).length)
  else none

/-- Python `str.splitlines()` restricted to the terminators that can occur
here: `\n`, `\r`, `\r\n`, `\x0b`, `\x0c`.  A trailing terminator produces
no empty final line. -/
def pySplitlinesAux : List Char → List Char → List (List Char)
  | cur, [] => if cur.isEmpty then [] else [cur.reverse]
  | cur, '\r' :: '\n' :: rest => cur.reverse :: pySplitlinesAux [] rest
  | cur, c :: rest =>
    if c == '\n' || c == '\r' || c == '\x0b' || c == '\x0c' then
      cur.reverse :: pySplitlinesAux [] rest
    else
      pySplitlinesAux (c :: cur) rest

def pySplitlines (cs : List Char) : List (List Char) :=
  pySplitlinesAux [] cs

/-- `parse_frontmatter`: no regex match yields an empty dict, otherwise
the key/value loop over the captured group's lines. -/
def parse_frontmatter (text : String) : List (String × String) :=
  match frontmatterBlock text with
  | none => []
  | some block => parseHeaderLines (pySplitlines block)

/-- `collect_skills`, with the sorted glob replaced by the list of file
contents in sorted path order: parse each file's frontmatter, take the
stripped `name`, skip blank or absent names. -/
def collect_skills (texts : List String) : List String :=
  texts.filterMap (fun t =>
    let name := pyStripStr ((dictGet (parse_frontmatter t) "name").getD "")
    if name = "" then none else some name)

/-- The fixed whitelist of optional metadata fields copied by
`build_cursor_plugin_manifest`. -/
def OPTIONAL_KEYS : List String :=
  ["description", "version", "author", "homepage", "repository", "license",
   "keywords", "logo"]

/-- `build_cursor_plugin_manifest`: load the authoritative manifest (absent
file raises, invalid JSON raises, `.get` on a non-dict raises), require a
non-empty string `name`, validate it against the regex, require a non-empty
skill list, then build the output dict: the three fixed entries followed by
the whitelisted optional fields present in the source, in whitelist
order.  `build_manifest_from` is the part after `load_json` returns a
dict. -/
def build_manifest_from (kvs : List (String × Json)) (skillTexts : List String) :
    Except ScriptError Json :=
  match jget kvs "name" with
  | some (Json.str name) =>
    if name = "" then .error .valueError
    else if PLUGIN_NAME_RE_match name then
      if collect_skills skillTexts = [] then .error .discoveryError
      else
        .ok (Json.obj
          ([("name", Json.str name), ("skills", Json.str "skills"),
            ("mcpServers", Json.str ".mcp.json")]
           ++ OPTIONAL_KEYS.filterMap (fun k => (jget kvs k).map (fun v => (k, v)))))
    else .error .valueError
  | _ => .error .valueError

/-- `build_cursor_plugin_manifest` = `load_json` on the authoritative
manifest followed by `build_manifest_from`. -/
def build_cursor_plugin_manifest (claude : FileState) (skillTexts : List String) :
    Except ScriptError Json :=
  match claude with
  | .absent => .error .missingFile
  | .invalid => .error .parseError
  | .parsed src =>
    match src with
    | .obj kvs => build_manifest_from kvs skillTexts
    | _ => .error .attributeError

/-- Python `a or b` where `a` is a `dict.get` result (`None` when the key
is absent, and `None` is falsy). -/
def pyOrJ (a : Option Json) (b : Json) : Json :=
  match a with
  | some j => if j.truthy then j else b
  | none => b

/-- Truthiness of an optional lookup result (absent keys are falsy). -/
def jTruthyOpt (o : Option Json) : Bool :=
  match o with
  | some j => j.truthy
  | none => false

/-- The url computation of `extract_mcp_from_gemini` on the first server's
config dict:
`url = server_cfg.get("url") or server_cfg.get("httpUrl") or DEFAULT_MCP_URL`
followed by
`if not isinstance(url, str) or not url.strip(): url = DEFAULT_MCP_URL`. -/
def resolve_url (cfg : List (String × Json)) : String :=
  let chained := pyOrJ (jget cfg "url") (pyOrJ (jget cfg "httpUrl") (Json.str DEFAULT_MCP_URL))
  match chained with
  | Json.str s => if pyStripStr s = "" then DEFAULT_MCP_URL else s
  | _ => DEFAULT_MCP_URL

/-- A value that fails the final guard
`isinstance(url, str) and url.strip()`: not a string, or a string that
strips to empty. -/
def Json.strBlankOrNonStr : Json → Bool
  | .str s => pyStripStr s == ""
  | _ => true

/-- `extract_mcp_from_gemini`: absent file yields the defaults; invalid
JSON raises out of `load_json`; a non-dict document raises from `.get`;
a missing, non-dict or empty `mcpServers` yields the defaults; otherwise
the first server entry is consulted — a non-dict value yields the full
defaults, a dict value yields its name and resolved url. -/
def extract_mcp_from_gemini : FileState → Except ScriptError (String × String)
  | .absent => .ok (DEFAULT_MCP_SERVER_NAME, DEFAULT_MCP_URL)
  | .invalid => .error .parseError
  | .parsed data =>
    match data with
    | .obj kvs =>
      match jget kvs "mcpServers" with
      | some (Json.obj (first :: rest)) =>
        match jget (first :: rest) first.1 with
        | some (Json.obj cfg) => .ok (first.1, resolve_url cfg)
        | _ => .ok (DEFAULT_MCP_SERVER_NAME, DEFAULT_MCP_URL)
      | _ => .ok (DEFAULT_MCP_SERVER_NAME, DEFAULT_MCP_URL)
    | _ => .error .attributeError

/-- `build_mcp_config`: one server entry with a single `url` field. -/
def build_mcp_config (gemini : FileState) : Except ScriptError Json :=
  match extract_mcp_from_gemini gemini with
  | .error e => .error e
  | .ok nu =>
    .ok (Json.obj [("mcpServers", Json.obj [(nu.1, Json.obj [("url", Json.str nu.2)])])])

/-- The default MCP document the spec displays. -/
def defaultMcpDoc : Json :=
  Json.obj [("mcpServers",
    Json.obj [(DEFAULT_MCP_SERVER_NAME, Json.obj [("url", Json.str DEFAULT_MCP_URL)])])]

/-- The `httpUrl` half of the URL rule as claim C1 words it: the `httpUrl`
value if it yields a non-empty string, else the default.  Follows the
claim's words, for comparison with the source-derived `resolve_url`. -/
def claimedHttpUrl (cfg : List (String × Json)) : String :=
  match jget cfg "httpUrl" with
  | some (Json.str s) => if s = "" then DEFAULT_MCP_URL else s
  | _ => DEFAULT_MCP_URL

/-- The URL rule as claim C1 words it: the `url` value if it yields a
non-empty string, otherwise the `httpUrl` value if it yields a non-empty
string, otherwise the default.  Follows the claim's words, for comparison
with the source-derived `resolve_url`. -/
def claimedResolvedUrl (cfg : List (String × Json)) : String :=
  match jget cfg "url" with
  | some (Json.str s) => if s = "" then claimedHttpUrl cfg else s
  | _ => claimedHttpUrl cfg

/-- Lowercase hex digit, for `\u00XX` escapes. -/
def hexDigit (n : Nat) : String :=
  match n with
  | 0 => "0" | 1 => "1" | 2 => "2" | 3 => "3" | 4 => "4"
  | 5 => "5" | 6 => "6" | 7 => "7" | 8 => "8" | 9 => "9"
  | 10 => "a" | 11 => "b" | 12 => "c" | 13 => "d" | 14 => "e"
  | _ => "f"

/-- One character of `json.dumps` string escaping with
`ensure_ascii=False`: backslash, quote, and control characters are
escaped, everything else passes through. -/
def escChar (c : Char) : String :=
  if c = '\\' then "\\\\"
  else if c = '"' then "\\\""
  else if c = '\n' then "\\n"
  else if c = '\r' then "\\r"
  else if c = '\t' then "\\t"
  else if c = '\x08' then "\\b"
  else if c = '\x0c' then "\\f"
  else if c.toNat < 32 then "\\u00" ++ hexDigit (c.toNat / 16) ++ hexDigit (c.toNat % 16)
  else String.singleton c

/-- `json.dumps` rendering of a string literal. -/
def quoteStr (s : String) : String :=
  "\"" ++ s.data.foldl (fun acc c => acc ++ escChar c) "" ++ "\""

/-- `indent=2` indentation at a nesting level. -/
def indentStr (lvl : Nat) : String :=
  String.mk (List.replicate (2 * lvl) ' ')

mutual

/-- `json.dumps(data, indent=2, ensure_ascii=False)` at a nesting level:
insertion-ordered keys, items separated by comma-newline, empty containers
rendered inline. -/
def renderJson (lvl : Nat) : Json → String
  | .null => "null"
  | .bool b => cond b "true" "false"
  | .num n => toString n
  | .str s => quoteStr s
  | .arr xs =>
    match xs with
    | [] => "[]"
    | _ :: _ =>
      "[\n" ++ String.intercalate ",\n" (renderArr (lvl + 1) xs)
        ++ "\n" ++ indentStr lvl ++ "]"
  | .obj kvs =>
    match kvs with
    | [] => "\x7b\x7d"
    | _ :: _ =>
      "\x7b\n" ++ String.intercalate ",\n" (renderObj (lvl + 1) kvs)
        ++ "\n" ++ indentStr lvl ++ "\x7d"

def renderArr (lvl : Nat) : List Json → List String
  | [] => []
  | x :: xs => (indentStr lvl ++ renderJson lvl x) :: renderArr lvl xs

def renderObj (lvl : Nat) : List (String × Json) → List String
  | [] => []
  | kv :: rest =>
    (indentStr lvl ++ quoteStr kv.1 ++ ": " ++ renderJson lvl kv.2) :: renderObj lvl rest

end

/-- `render_json`: the dump plus a trailing newline. -/
def render_json (data : Json) : String :=
  renderJson 0 data ++ "\n"

/-- Result of one `write_or_check` call: the returned boolean, the file's
content afterwards, and whether a write happened. -/
structure StepResult where
  ok : Bool
  file : Option String
  wrote : Bool

/-- `write_or_check` acting on one file's content (`none` = the file does
not exist): up-to-date files are left alone; in check mode nothing is ever
written; otherwise the rendered content is written. -/
def write_or_check (current : Option String) (content : String) (check : Bool) :
    StepResult :=
  if current = some content then ⟨true, current, false⟩
  else if check then ⟨false, current, false⟩
  else ⟨true, some content, true⟩

/-- The input side of the filesystem: the authoritative manifest, the
optional gemini extension config, and the skill descriptor contents in
sorted path order. -/
structure Inputs where
  claude : FileState
  gemini : FileState
  skillTexts : List String

/-- The output side of the filesystem: the contents of the two generated
files (`none` = not present). -/
structure OutFiles where
  pluginFile : Option String
  mcpFile : Option String

/-- Observable outcome of a completed `main`: the output files afterwards,
whether the process exits zero, and whether each file was written. -/
structure RunOutcome where
  files : OutFiles
  exitZero : Bool
  wrotePlugin : Bool
  wroteMcp : Bool

/-- `main`: render both documents (both builders run before any file
operation), then run `write_or_check` on each; in check mode the exit
status reflects whether both files were up to date. -/
def script_main (inp : Inputs) (check : Bool) (fs : OutFiles) :
    Except ScriptError RunOutcome :=
  match build_cursor_plugin_manifest inp.claude inp.skillTexts with
  | .error e => .error e
  | .ok m =>
    match build_mcp_config inp.gemini with
    | .error e => .error e
    | .ok c =>
      let pm := render_json m
      let mc := render_json c
      let r1 := write_or_check fs.pluginFile pm check
      let r2 := write_or_check fs.mcpFile mc check
      .ok ⟨⟨r1.file, r2.file⟩, if check then r1.ok && r2.ok else true,
           r1.wrote, r2.wrote⟩

/-- A whole process run: an uncaught exception leaves the filesystem
untouched and exits non-zero; otherwise the outcome's files and exit
status. -/
def runMain (inp : Inputs) (check : Bool) (fs : OutFiles) : OutFiles × Bool :=
  match script_main inp check fs with
  | .error _ => (fs, false)
  | .ok r => (r.files, r.exitZero)

/-- A server config with a whitespace-only `url` and a non-empty
`httpUrl`: the input separating the code's URL rule from the claimed
one. -/
def c1CfgEntries : List (String × Json) :=
  [("url", Json.str "  "), ("httpUrl", Json.str "https://example.com/mcp")]

/-- A gemini extension document whose first (only) server carries
`c1CfgEntries`. -/
def c1GeminiDoc : Json :=
  Json.obj [("mcpServers", Json.obj [("srv", Json.obj c1CfgEntries)])]

/-- A concrete skill descriptor set used by witnesses. -/
def demoSkillTexts : List String :=
  ["---\nname: demo-skill\n---\nBody text.\n"]

/-- Entries of a concrete authoritative manifest used by witnesses. -/
def demoClaudeEntries : List (String × Json) :=
  [("name", Json.str "demo-plugin"), ("version", Json.str "1.0.0")]

/-- A concrete authoritative manifest used by witnesses. -/
def demoClaude : FileState :=
  .parsed (Json.obj demoClaudeEntries)

/-- The manifest document built from the demo inputs. -/
def demoManifest : Json :=
  match build_cursor_plugin_manifest demoClaude demoSkillTexts with
  | .ok m => m
  | .error _ => Json.null

/-- The entries of the manifest document built from the demo inputs. -/
def demoManifestEntries : List (String × Json) :=
  match demoManifest with
  | .obj l => l
  | _ => []

/-- Concrete inputs on which the script succeeds, used by witnesses. -/
def demoInputs : Inputs :=
  ⟨demoClaude, .absent, demoSkillTexts⟩

/-- The outcome of a write-mode run of `script_main` on `demoInputs`
against an empty output directory. -/
def demoOutcome : RunOutcome :=
  match script_main demoInputs false ⟨none, none⟩ with
  | .ok r => r
  | .error _ => ⟨⟨none, none⟩, false, false, false⟩

/-- The outcome of a check-mode run of `script_main` on `demoInputs`
against an empty output directory. -/
def demoCheckOutcome : RunOutcome :=
  match script_main demoInputs true ⟨none, none⟩ with
  | .ok r => r
  | .error _ => ⟨⟨none, none⟩, false, false, false⟩

/-! ## Helper lemmas -/

theorem nameCore_eq_claim (cs : List Char) : nameCoreChars cs = claimNameOkChars cs := by
  match cs with
  | [] => rfl
  | [c] =>
    simp [nameCoreChars, claimNameOkChars]
  | c :: c2 :: cs =>
    simp only [nameCoreChars, claimNameOkChars, List.isEmpty_cons, Bool.not_false,
      List.headD_cons, List.getLastD_cons, List.drop_succ_cons, List.drop_zero,
      Bool.true_and]
    cases lowerAlnum c <;> cases (c2 :: cs).dropLast.all interiorChar <;>
      cases lowerAlnum (cs.getLastD c2) <;> rfl

theorem jget_cons_self (k : String) (v : Json) (rest : List (String × Json)) :
    jget ((k, v) :: rest) k = some v := by
  simp [jget]

theorem pyOrJ_falsy (a : Option Json) (b : Json) (h : jTruthyOpt a = false) :
    pyOrJ a b = b := by
  cases a with
  | none => rfl
  | some j =>
    simp only [jTruthyOpt] at h
    simp [pyOrJ, h]

theorem pyOrJ_truthy (j b : Json) (h : j.truthy = true) : pyOrJ (some j) b = j := by
  simp [pyOrJ, h]

theorem resolve_url_eq (cfg : List (String × Json)) :
    resolve_url cfg =
      match pyOrJ (jget cfg "url") (pyOrJ (jget cfg "httpUrl") (Json.str DEFAULT_MCP_URL)) with
      | Json.str s => if pyStripStr s = "" then DEFAULT_MCP_URL else s
      | _ => DEFAULT_MCP_URL := rfl

/-! ## C1 -/

/-- Claim C1 (counterexample): a server config whose `url` is the
non-empty (whitespace-only) string of two spaces and whose `httpUrl` is a
non-empty URL.  The claim's resolution rule picks the `url` value, but the
code returns the default URL: the truthy `url` short-circuits the `or`
chain and then fails the final blank-string guard, so neither `url` nor
`httpUrl` is used. -/
theorem c1_counterexample :
    extract_mcp_from_gemini (.parsed c1GeminiDoc) = Except.ok ("srv", DEFAULT_MCP_URL)
    ∧ claimedResolvedUrl c1CfgEntries = "  "
    ∧ DEFAULT_MCP_URL ≠ "  " := by
  refine ⟨rfl, rfl, ?_⟩
  decide

/-- Claim C1 (amended): the URL is resolved by the Python truthiness chain
`url or httpUrl or default`, and the chosen value is then replaced by the
default unless it is a string with non-whitespace content.  In particular
a `url` value that is a non-blank string wins; `httpUrl` is consulted only
when `url` is absent or falsy; and a truthy `url` that is not a non-blank
string (for instance whitespace-only) yields the default even when
`httpUrl` is a non-empty string; likewise for the chosen `httpUrl`. -/
theorem c1_url_resolution :
    (∀ (name : String) (cfg rest : List (String × Json)),
      extract_mcp_from_gemini
          (.parsed (Json.obj [("mcpServers", Json.obj ((name, Json.obj cfg) :: rest))]))
        = Except.ok (name, resolve_url cfg))
    ∧ (∀ (cfg : List (String × Json)) (s : String),
        jget cfg "url" = some (Json.str s) → pyStripStr s ≠ "" →
        resolve_url cfg = s)
    ∧ (∀ (cfg : List (String × Json)) (t : String),
        jTruthyOpt (jget cfg "url") = false →
        jget cfg "httpUrl" = some (Json.str t) → pyStripStr t ≠ "" →
        resolve_url cfg = t)
    ∧ (∀ (cfg : List (String × Json)) (u : Json),
        jget cfg "url" = some u → u.truthy = true → u.strBlankOrNonStr = true →
        resolve_url cfg = DEFAULT_MCP_URL)
    ∧ (∀ cfg : List (String × Json),
        jTruthyOpt (jget cfg "url") = false → jTruthyOpt (jget cfg "httpUrl") = false →
        resolve_url cfg = DEFAULT_MCP_URL)
    ∧ (∀ (cfg : List (String × Json)) (u : Json),
        jTruthyOpt (jget cfg "url") = false →
        jget cfg "httpUrl" = some u → u.truthy = true → u.strBlankOrNonStr = true →
        resolve_url cfg = DEFAULT_MCP_URL) := by
  refine ⟨?_, ?_, ?_, ?_, ?_, ?_⟩
  · intro name cfg rest
    simp [extract_mcp_from_gemini, jget]
  · intro cfg s h1 h2
    have hs : (s != "") = true := by
      rcases eq_or_ne s "" with rfl | hne
      · exact absurd rfl h2
      · simpa using hne
    simp [resolve_url, h1, pyOrJ, Json.truthy, hs, h2]
  · intro cfg t h1 h2 h3
    have ht : (Json.str t).truthy = true := by
      rcases eq_or_ne t "" with rfl | hne
      · exact absurd rfl h3
      · simpa [Json.truthy] using hne
    rw [resolve_url_eq, pyOrJ_falsy _ _ h1, h2, pyOrJ_truthy _ _ ht]
    simp [h3]
  · intro cfg u h1 h2 h3
    rw [resolve_url_eq, h1, pyOrJ_truthy _ _ h2]
    cases u with
    | str s =>
      simp only [Json.strBlankOrNonStr, beq_iff_eq] at h3
      simp [h3]
    | null => rfl
    | bool b => rfl
    | num n => rfl
    | arr xs => rfl
    | obj kvs => rfl
  · intro cfg h1 h2
    rw [resolve_url_eq, pyOrJ_falsy _ _ h1, pyOrJ_falsy _ _ h2]
    simp
  · intro cfg u h1 h2 h3 h4
    rw [resolve_url_eq, pyOrJ_falsy _ _ h1, h2, pyOrJ_truthy _ _ h3]
    cases u with
    | str s =>
      simp only [Json.strBlankOrNonStr, beq_iff_eq] at h4
      simp [h4]
    | null => rfl
    | bool b => rfl
    | num n => rfl
    | arr xs => rfl
    | obj kvs => rfl

/-- Witness for C1's amended theorem at concrete inputs: a single server
named `hf` with a non-blank string `url` resolves to that url. -/
theorem c1_witness :
    extract_mcp_from_gemini
        (.parsed (Json.obj [("mcpServers",
          Json.obj [("hf", Json.obj [("url", Json.str "https://hf.co/mcp")])])]))
      = Except.ok ("hf", resolve_url [("url", Json.str "https://hf.co/mcp")])
    ∧ resolve_url [("url", Json.str "https://hf.co/mcp")] = "https://hf.co/mcp" :=
  ⟨c1_url_resolution.1 "hf" [("url", Json.str "https://hf.co/mcp")] [],
   c1_url_resolution.2.1 [("url", Json.str "https://hf.co/mcp")] "https://hf.co/mcp"
     rfl (by decide)⟩

/-! ## C2 -/

/-- Claim C2 (counterexample): the two-character name of a lowercase
letter followed by a newline is accepted by the code's regex match
(Python's `$` matches just before a single trailing newline) although it
does not end with a lowercase alphanumeric character, so the claimed
acceptance condition is violated. -/
theorem c2_counterexample :
    validate_plugin_name "a\n" = Except.ok ()
    ∧ claimNameOkChars ("a\n").data = false
    ∧ (build_cursor_plugin_manifest
        (.parsed (Json.obj [("name", Json.str "a\n")])) demoSkillTexts).isOk = true := by
  exact ⟨rfl, by decide, rfl⟩

/-- Claim C2 (amended): the builder accepts a candidate name iff the name,
possibly after removing a single trailing newline character, is a
non-empty string that starts and ends with a lowercase alphanumeric
character and whose interior characters are lowercase alphanumerics, `.`,
or `-`.  (Python's unanchored-by-`\Z` dollar also matches just before one
final newline.) -/
theorem c2_name_validation (s : String) :
    validate_plugin_name s = Except.ok () ↔
      (claimNameOkChars s.data = true
        ∨ (s.data.getLastD ' ' = '\n' ∧ claimNameOkChars s.data.dropLast = true)) := by
  have h1 : validate_plugin_name s = Except.ok () ↔ PLUGIN_NAME_RE_match s = true := by
    unfold validate_plugin_name
    split
    · next hb => simp [hb]
    · next hb => simp [hb]
  rw [h1]
  unfold PLUGIN_NAME_RE_match
  rw [nameCore_eq_claim, nameCore_eq_claim]
  simp [Bool.or_eq_true, Bool.and_eq_true, beq_iff_eq]

/-- Witness for C2's amended theorem: `my-plugin.v2` satisfies the claimed
pattern and is accepted. -/
theorem c2_witness : validate_plugin_name "my-plugin.v2" = Except.ok () :=
  (c2_name_validation "my-plugin.v2").mpr (Or.inl (by decide))

/-! ## Inversion of a successful manifest build, and write_or_check facts -/

theorem build_manifest_ok_shape (claude : FileState) (texts : List String) (m : Json)
    (h : build_cursor_plugin_manifest claude texts = Except.ok m) :
    ∃ (kvs : List (String × Json)) (name : String),
      claude = .parsed (Json.obj kvs)
      ∧ jget kvs "name" = some (Json.str name)
      ∧ name ≠ ""
      ∧ PLUGIN_NAME_RE_match name = true
      ∧ collect_skills texts ≠ []
      ∧ m = Json.obj (("name", Json.str name) :: ("skills", Json.str "skills")
            :: ("mcpServers", Json.str ".mcp.json")
            :: OPTIONAL_KEYS.filterMap (fun k => (jget kvs k).map (fun v => (k, v)))) := by
  cases claude with
  | absent => exact absurd h (by simp [build_cursor_plugin_manifest])
  | invalid => exact absurd h (by simp [build_cursor_plugin_manifest])
  | parsed src =>
    cases src with
    | null => exact absurd h (by simp [build_cursor_plugin_manifest])
    | bool b => exact absurd h (by simp [build_cursor_plugin_manifest])
    | num n => exact absurd h (by simp [build_cursor_plugin_manifest])
    | str s => exact absurd h (by simp [build_cursor_plugin_manifest])
    | arr xs => exact absurd h (by simp [build_cursor_plugin_manifest])
    | obj kvs =>
      replace h : build_manifest_from kvs texts = Except.ok m := h
      unfold build_manifest_from at h
      split at h
      · next name heq =>
        split at h
        · exact absurd h (by simp)
        · next hne =>
          split at h
          · next hre =>
            split at h
            · exact absurd h (by simp)
            · next hskills =>
              injection h with h2
              exact ⟨kvs, name, rfl, heq, hne, hre, hskills, h2.symm⟩
          · exact absurd h (by simp)
      · exact absurd h (by simp)

theorem write_or_check_check (cur : Option String) (cnt : String) :
    (write_or_check cur cnt true).file = cur ∧ (write_or_check cur cnt true).wrote = false := by
  unfold write_or_check
  split
  · exact ⟨rfl, rfl⟩
  · exact ⟨rfl, rfl⟩

theorem write_or_check_write_file (cur : Option String) (cnt : String) :
    (write_or_check cur cnt false).file = some cnt := by
  unfold write_or_check
  split
  · next hc => rw [hc]
  · rfl

theorem write_or_check_uptodate (cnt : String) (check : Bool) :
    write_or_check (some cnt) cnt check = ⟨true, some cnt, false⟩ := by
  unfold write_or_check
  simp

/-! ## C3 -/

/-- Claim C3: with no gemini extension file, and also with a present one
whose `mcpServers` is missing, not a dict, or empty, the MCP Config
Builder produces exactly the default document; and when the first server
entry's value is not itself a dict, the result is again the full defaults,
default server name included. -/
theorem c3_default_fallback :
    build_mcp_config .absent = Except.ok defaultMcpDoc
    ∧ (∀ kvs : List (String × Json), jget kvs "mcpServers" = none →
        build_mcp_config (.parsed (Json.obj kvs)) = Except.ok defaultMcpDoc)
    ∧ (∀ (kvs : List (String × Json)) (v : Json),
        jget kvs "mcpServers" = some v → v.isNonemptyDict = false →
        build_mcp_config (.parsed (Json.obj kvs)) = Except.ok defaultMcpDoc)
    ∧ (∀ (kvs rest : List (String × Json)) (name : String) (v : Json),
        jget kvs "mcpServers" = some (Json.obj ((name, v) :: rest)) →
        v.isDict = false →
        build_mcp_config (.parsed (Json.obj kvs)) = Except.ok defaultMcpDoc) := by
  refine ⟨rfl, ?_, ?_, ?_⟩
  · intro kvs h
    simp [build_mcp_config, extract_mcp_from_gemini, h, defaultMcpDoc]
  · intro kvs v h hv
    cases v with
    | obj entries =>
      cases entries with
      | nil => simp [build_mcp_config, extract_mcp_from_gemini, h, defaultMcpDoc]
      | cons e rest => simp [Json.isNonemptyDict] at hv
    | null => simp [build_mcp_config, extract_mcp_from_gemini, h, defaultMcpDoc]
    | bool b => simp [build_mcp_config, extract_mcp_from_gemini, h, defaultMcpDoc]
    | num n => simp [build_mcp_config, extract_mcp_from_gemini, h, defaultMcpDoc]
    | str s => simp [build_mcp_config, extract_mcp_from_gemini, h, defaultMcpDoc]
    | arr xs => simp [build_mcp_config, extract_mcp_from_gemini, h, defaultMcpDoc]
  · intro kvs rest name v h hv
    cases v with
    | obj entries => simp [Json.isDict] at hv
    | null => simp [build_mcp_config, extract_mcp_from_gemini, h, jget, defaultMcpDoc]
    | bool b => simp [build_mcp_config, extract_mcp_from_gemini, h, jget, defaultMcpDoc]
    | num n => simp [build_mcp_config, extract_mcp_from_gemini, h, jget, defaultMcpDoc]
    | str s => simp [build_mcp_config, extract_mcp_from_gemini, h, jget, defaultMcpDoc]
    | arr xs => simp [build_mcp_config, extract_mcp_from_gemini, h, jget, defaultMcpDoc]

/-- Witness for C3 at concrete inputs: an empty extension document, and a
document whose only server entry's value is a bare string. -/
theorem c3_witness :
    build_mcp_config (.parsed (Json.obj [])) = Except.ok defaultMcpDoc
    ∧ build_mcp_config
        (.parsed (Json.obj [("mcpServers", Json.obj [("srv", Json.str "x")])]))
      = Except.ok defaultMcpDoc :=
  ⟨c3_default_fallback.2.1 [] rfl,
   c3_default_fallback.2.2.2 [("mcpServers", Json.obj [("srv", Json.str "x")])] []
     "srv" (Json.str "x") rfl rfl⟩

/-! ## C4 -/

/-- Claim C4: when the skills directory yields zero valid descriptors, the
run fails and leaves both output files untouched; and when the
authoritative manifest itself is fine, the failure is specifically the
discovery error. -/
theorem c4_empty_skills (inp : Inputs) (check : Bool) (fs : OutFiles)
    (h : collect_skills inp.skillTexts = []) :
    runMain inp check fs = (fs, false)
    ∧ (∀ (kvs : List (String × Json)) (name : String),
        inp.claude = .parsed (Json.obj kvs) →
        jget kvs "name" = some (Json.str name) →
        name ≠ "" → PLUGIN_NAME_RE_match name = true →
        script_main inp check fs = Except.error .discoveryError) := by
  have hb : ∀ m, build_cursor_plugin_manifest inp.claude inp.skillTexts ≠ Except.ok m := by
    intro m hm
    obtain ⟨_, _, _, _, _, _, hsk, _⟩ := build_manifest_ok_shape _ _ _ hm
    exact hsk h
  constructor
  · cases hbuild : build_cursor_plugin_manifest inp.claude inp.skillTexts with
    | error e => simp [runMain, script_main, hbuild]
    | ok m => exact absurd hbuild (hb m)
  · intro kvs name hc hn hne hre
    have hberr : build_cursor_plugin_manifest inp.claude inp.skillTexts
        = Except.error .discoveryError := by
      rw [hc]
      simp [build_cursor_plugin_manifest, build_manifest_from, hn, hne, hre, h]
    simp [script_main, hberr]

/-- Witness for C4 at concrete inputs: the demo manifest with an empty
skills directory. -/
theorem c4_witness :
    runMain ⟨demoClaude, .absent, []⟩ false ⟨none, none⟩ = (⟨none, none⟩, false)
    ∧ script_main ⟨demoClaude, .absent, []⟩ false ⟨none, none⟩
      = Except.error .discoveryError := by
  have h := c4_empty_skills ⟨demoClaude, .absent, []⟩ false ⟨none, none⟩ rfl
  exact ⟨h.1, h.2 demoClaudeEntries "demo-plugin" rfl rfl (by decide) (by decide)⟩

/-! ## C5 -/

/-- Claim C5: in check mode the run never changes any output file and
performs no writes, whatever the starting filesystem state and whatever
the outcome. -/
theorem c5_check_no_mutation (inp : Inputs) (fs : OutFiles) :
    (runMain inp true fs).1 = fs
    ∧ (∀ r : RunOutcome, script_main inp true fs = Except.ok r →
        r.files = fs ∧ r.wrotePlugin = false ∧ r.wroteMcp = false) := by
  obtain ⟨f1, f2⟩ := fs
  have key : ∀ r : RunOutcome, script_main inp true ⟨f1, f2⟩ = Except.ok r →
      r.files = ⟨f1, f2⟩ ∧ r.wrotePlugin = false ∧ r.wroteMcp = false := by
    intro r hr
    unfold script_main at hr
    split at hr
    · exact absurd hr (by simp)
    · split at hr
      · exact absurd hr (by simp)
      · injection hr with h2
        rw [← h2]
        refine ⟨?_, ?_, ?_⟩ <;>
          simp [(write_or_check_check f1 _).1, (write_or_check_check f2 _).1,
            (write_or_check_check f1 _).2, (write_or_check_check f2 _).2]
  constructor
  · unfold runMain
    cases hs : script_main inp true ⟨f1, f2⟩ with
    | error e => rfl
    | ok r => exact (key r hs).1
  · exact key

/-- Witness for C5 at concrete inputs: the demo inputs in check mode
against an empty output directory. -/
theorem c5_witness :
    (runMain demoInputs true ⟨none, none⟩).1 = (⟨none, none⟩ : OutFiles)
    ∧ demoCheckOutcome.files = (⟨none, none⟩ : OutFiles)
    ∧ demoCheckOutcome.wrotePlugin = false
    ∧ demoCheckOutcome.wroteMcp = false :=
  ⟨(c5_check_no_mutation demoInputs ⟨none, none⟩).1,
   (c5_check_no_mutation demoInputs ⟨none, none⟩).2 demoCheckOutcome rfl⟩

/-! ## C6 -/

/-- Claim C6: write mode is idempotent.  After a successful write-mode
run, a second write-mode run on the resulting files succeeds, finds both
files up to date, performs zero writes, and leaves the files
byte-identical. -/
theorem c6_idempotent (inp : Inputs) (fs : OutFiles) (r : RunOutcome)
    (h : script_main inp false fs = Except.ok r) :
    script_main inp false r.files = Except.ok ⟨r.files, true, false, false⟩ := by
  unfold script_main at h ⊢
  cases hb : build_cursor_plugin_manifest inp.claude inp.skillTexts with
  | error e => rw [hb] at h; exact absurd h (by simp)
  | ok m =>
    cases hc : build_mcp_config inp.gemini with
    | error e => rw [hb, hc] at h; exact absurd h (by simp)
    | ok c =>
      rw [hb, hc] at h
      injection h with h2
      have hr : r.files = ⟨some (render_json m), some (render_json c)⟩ := by
        rw [← h2]
        simp [write_or_check_write_file]
      rw [hr]
      simp [write_or_check_uptodate]

/-- Witness for C6: the demo write-mode run against an empty output
directory, re-run on its own outputs. -/
theorem c6_witness :
    script_main demoInputs false demoOutcome.files
      = Except.ok ⟨demoOutcome.files, true, false, false⟩ :=
  c6_idempotent demoInputs ⟨none, none⟩ demoOutcome rfl

/-! ## C7 -/

/-- Claim C7: every successfully built manifest carries a regex-validated
`name`, the fixed literal `skills` directory reference, and the fixed
literal `.mcp.json` reference, in that order; and the discovered skill
list influences nothing beyond the non-emptiness check. -/
theorem c7_fixed_fields :
    (∀ (claude : FileState) (texts : List String) (m : Json),
      build_cursor_plugin_manifest claude texts = Except.ok m →
      ∃ (name : String) (rest : List (String × Json)),
        m = Json.obj (("name", Json.str name) :: ("skills", Json.str "skills")
              :: ("mcpServers", Json.str ".mcp.json") :: rest)
        ∧ PLUGIN_NAME_RE_match name = true)
    ∧ (∀ (claude : FileState) (texts texts' : List String),
        collect_skills texts ≠ [] → collect_skills texts' ≠ [] →
        build_cursor_plugin_manifest claude texts
          = build_cursor_plugin_manifest claude texts') := by
  constructor
  · intro claude texts m h
    obtain ⟨kvs, name, _, _, _, hre, _, hm⟩ := build_manifest_ok_shape claude texts m h
    exact ⟨name, _, hm, hre⟩
  · intro claude texts texts' h1 h2
    cases claude with
    | absent => rfl
    | invalid => rfl
    | parsed src =>
      cases src with
      | null => rfl
      | bool b => rfl
      | num n => rfl
      | str s => rfl
      | arr xs => rfl
      | obj kvs =>
        show build_manifest_from kvs texts = build_manifest_from kvs texts'
        unfold build_manifest_from
        cases hj : jget kvs "name" with
        | none => rfl
        | some v =>
          cases v with
          | str name =>
            by_cases hname : name = ""
            · simp [hname]
            · by_cases hre : PLUGIN_NAME_RE_match name
              · simp [hname, hre, h1, h2]
              · simp [hname, hre]
          | null => rfl
          | bool b => rfl
          | num n => rfl
          | arr xs => rfl
          | obj kvs2 => rfl

/-- Witness for C7 at concrete inputs: the demo run, and invariance of the
build under doubling the skill list. -/
theorem c7_witness :
    (∃ (name : String) (rest : List (String × Json)),
      demoManifest = Json.obj (("name", Json.str name) :: ("skills", Json.str "skills")
            :: ("mcpServers", Json.str ".mcp.json") :: rest)
      ∧ PLUGIN_NAME_RE_match name = true)
    ∧ build_cursor_plugin_manifest demoClaude demoSkillTexts
      = build_cursor_plugin_manifest demoClaude (demoSkillTexts ++ demoSkillTexts) :=
  ⟨c7_fixed_fields.1 demoClaude demoSkillTexts demoManifest rfl,
   c7_fixed_fields.2 demoClaude demoSkillTexts (demoSkillTexts ++ demoSkillTexts)
     (by decide) (by decide)⟩

/-! ## Association-list lemmas for C8 and C9 -/

theorem jget_filterMap_of_notmem (keys : List String) (g : String → Option Json)
    (k : String) (hk : k ∉ keys) :
    jget (keys.filterMap (fun k2 => (g k2).map (fun v => (k2, v)))) k = none := by
  induction keys with
  | nil => rfl
  | cons k0 rest ih =>
    have hne : k0 ≠ k := fun e => hk (e ▸ List.mem_cons_self k0 rest)
    have hmem : k ∉ rest := fun e => hk (List.mem_cons_of_mem k0 e)
    cases hg : g k0 with
    | none => simpa [List.filterMap_cons, hg] using ih hmem
    | some v => simpa [List.filterMap_cons, hg, jget, hne] using ih hmem

theorem jget_filterMap_of_mem (keys : List String) (g : String → Option Json)
    (k : String) (hnd : keys.Nodup) (hk : k ∈ keys) :
    jget (keys.filterMap (fun k2 => (g k2).map (fun v => (k2, v)))) k = g k := by
  induction keys with
  | nil => cases hk
  | cons k0 rest ih =>
    obtain ⟨hnotin, hnd2⟩ := List.nodup_cons.mp hnd
    rcases List.mem_cons.mp hk with rfl | hmem
    · cases hg : g k with
      | some v => simp [List.filterMap_cons, hg, jget]
      | none =>
        simpa [List.filterMap_cons, hg] using jget_filterMap_of_notmem rest g k hnotin
    · have hne : k0 ≠ k := fun e => hnotin (e ▸ hmem)
      cases hg : g k0 with
      | none => simpa [List.filterMap_cons, hg] using ih hnd2 hmem
      | some v => simpa [List.filterMap_cons, hg, jget, hne] using ih hnd2 hmem

theorem optional_key_ne (k : String) (hk : k ∈ OPTIONAL_KEYS) :
    "name" ≠ k ∧ "skills" ≠ k ∧ "mcpServers" ≠ k := by
  simp only [OPTIONAL_KEYS, List.mem_cons, List.not_mem_nil, or_false] at hk
  rcases hk with rfl | rfl | rfl | rfl | rfl | rfl | rfl | rfl <;>
    exact ⟨by decide, by decide, by decide⟩

theorem dictGet_dictInsert (m : List (String × String)) (a b k : String) :
    dictGet (dictInsert m a b) k = if a = k then some b else dictGet m k := by
  induction m with
  | nil => rfl
  | cons p rest ih =>
    obtain ⟨k2, v2⟩ := p
    by_cases h2 : k2 = a
    · subst h2
      by_cases hk : k2 = k
      · subst hk
        simp [dictInsert, dictGet]
      · simp [dictInsert, dictGet, hk]
    · by_cases hk : a = k
      · subst hk
        simp [dictInsert, dictGet, h2, ih]
      · simp [dictInsert, dictGet, h2, hk, ih]

theorem parseHeaderLines_foldl (lines : List (List Char)) (m : List (String × String))
    (k : String) :
    dictGet (lines.foldl (fun m line =>
        match lineKV line with
        | some kv => dictInsert m kv.1 kv.2
        | none => m) m) k
      = (lines.filterMap lineKV).foldl
          (fun acc p => if p.1 = k then some p.2 else acc) (dictGet m k) := by
  induction lines generalizing m with
  | nil => rfl
  | cons l rest ih =>
    cases hl : lineKV l with
    | none => simp [List.foldl_cons, List.filterMap_cons, hl, ih]
    | some kv =>
      simp only [List.foldl_cons, List.filterMap_cons, hl]
      rw [ih, dictGet_dictInsert]

/-! ## C8 -/

/-- Claim C8: for every whitelisted optional field, a successfully built
manifest holds exactly the source's value when the source has the field,
and has no such key at all when the source lacks it (both directions are
the single lookup equation). -/
theorem c8_optional_fields (kvs : List (String × Json)) (texts : List String)
    (k : String) (mkvs : List (String × Json))
    (hk : k ∈ OPTIONAL_KEYS)
    (h : build_cursor_plugin_manifest (.parsed (Json.obj kvs)) texts
      = Except.ok (Json.obj mkvs)) :
    jget mkvs k = jget kvs k := by
  obtain ⟨hne1, hne2, hne3⟩ := optional_key_ne k hk
  obtain ⟨kvs2, name, hfile, _, _, _, _, hm⟩ := build_manifest_ok_shape _ _ _ h
  have hkvs : kvs2 = kvs := by
    injection hfile with e
    injection e with e2
    exact e2.symm
  subst hkvs
  have hmk : mkvs = ("name", Json.str name) :: ("skills", Json.str "skills")
      :: ("mcpServers", Json.str ".mcp.json")
      :: OPTIONAL_KEYS.filterMap (fun k => (jget kvs2 k).map (fun v => (k, v))) := by
    injection hm with e
  rw [hmk]
  simp only [jget, if_neg hne1, if_neg hne2, if_neg hne3]
  exact jget_filterMap_of_mem OPTIONAL_KEYS _ k (by decide) hk

/-- Witness for C8 at concrete inputs: the demo manifest copies `version`
and omits `license`. -/
theorem c8_witness :
    jget demoManifestEntries "version" = jget demoClaudeEntries "version"
    ∧ jget demoManifestEntries "license" = jget demoClaudeEntries "license" :=
  ⟨c8_optional_fields demoClaudeEntries demoSkillTexts "version" demoManifestEntries
      (by decide) rfl,
   c8_optional_fields demoClaudeEntries demoSkillTexts "license" demoManifestEntries
      (by decide) rfl⟩

/-! ## C9 -/

/-- Claim C9 (implicit): over the lines of a header block, the parsed
mapping's value at a key is the value of the last line carrying that key,
where each line with a colon is split at its first colon and both parts
are stripped, and lines without a colon contribute nothing; shown both as
the general fold characterisation and on a concrete two-`name` block. -/
theorem c9_frontmatter_last_wins :
    (∀ (lines : List (List Char)) (k : String),
      dictGet (parseHeaderLines lines) k
        = (lines.filterMap lineKV).foldl
            (fun acc p => if p.1 = k then some p.2 else acc) none)
    ∧ parse_frontmatter "---\nname: a\nname: b\n---\n" = [("name", "b")] := by
  constructor
  · intro lines k
    unfold parseHeaderLines
    simpa using parseHeaderLines_foldl lines [] k
  · rfl

/-! ## C10 -/

/-- Claim C10 (implicit): a present but syntactically invalid extension
config makes `load_json` raise out of `extract_mcp_from_gemini`, so the
whole run aborts with the parse error before any output is produced; it
does not fall back to the defaults. -/
theorem c10_invalid_json_aborts (inp : Inputs) (check : Bool) (fs : OutFiles)
    (h : inp.gemini = .invalid) :
    extract_mcp_from_gemini .invalid = Except.error .parseError
    ∧ runMain inp check fs = (fs, false) := by
  refine ⟨rfl, ?_⟩
  cases hb : build_cursor_plugin_manifest inp.claude inp.skillTexts with
  | error e => simp [runMain, script_main, hb]
  | ok m => simp [runMain, script_main, hb, build_mcp_config, h, extract_mcp_from_gemini]

/-- Witness for C10 at concrete inputs: the demo manifest with an invalid
gemini extension file. -/
theorem c10_witness :
    extract_mcp_from_gemini .invalid = Except.error .parseError
    ∧ runMain ⟨demoClaude, .invalid, demoSkillTexts⟩ false ⟨none, none⟩
      = (⟨none, none⟩, false) :=
  c10_invalid_json_aborts ⟨demoClaude, .invalid, demoSkillTexts⟩ false ⟨none, none⟩ rfl

end CursorGen
